import Mathlib

/-
Verification of the Pixel-Runner combat code.

Shallow embedding of the frame-based combat system
(src/game/entities/combat_system.py), the player state machine
(src/game/entities/player.py), the skeleton enemy
(src/game/entities/skeleton.py) and the enemy-attack pass of the game
state (src/game/states/game_state.py).  Python floats are modelled as
exact rationals, Python ints as integers; the trigonometric knockback
branch is modelled over the reals.  Sprite surfaces, asset loading and
sound playback side effects are modelled only insofar as the verified
properties mention them (audio as an emitted list of sound names).
-/

namespace PixelRunner

/-- Truncation toward zero: the effect of applying the Python int()
conversion to an exact rational value. -/
def pyTrunc (q : ℚ) : ℤ := if q < 0 then ⌈q⌉ else ⌊q⌋

/-- A pygame Rect: integer position and size. -/
structure Rect where
  x : ℤ
  y : ℤ
  w : ℤ
  h : ℤ
deriving DecidableEq

namespace Rect

/-- Horizontal center, using Python floor division on the width. -/
def centerx (r : Rect) : ℤ := r.x + Int.fdiv r.w 2

/-- Vertical center, using Python floor division on the height. -/
def centery (r : Rect) : ℤ := r.y + Int.fdiv r.h 2

/-- Bottom edge of the rect. -/
def bottom (r : Rect) : ℤ := r.y + r.h

/-- The pygame Rect.colliderect overlap test. -/
def colliderect (a b : Rect) : Bool :=
  decide (a.x < b.x + b.w) && decide (a.y < b.y + b.h) &&
    decide (b.x < a.x + a.w) && decide (b.y < a.y + a.h)

/-- Python truthiness of a pygame Rect: false iff width or height is zero. -/
def truthy (r : Rect) : Bool := decide (r.w ≠ 0) && decide (r.h ≠ 0)

end Rect

namespace CombatSystem

/-- The AttackConfig dataclass of combat_system.py.  The per-frame hitbox
table is omitted: none of the verified properties depends on hitbox
geometry of the player attacks. -/
structure AttackConfig where
  hit_frames : List ℤ := []
  base_damage : ℚ := 10
  knockback_force : ℚ := 5
  knockback_angle : Option ℚ := none
  hit_stop_frames : ℤ := 0
  can_hit_multiple : Bool := true
  max_hits_per_target : ℤ := 1
  frame_damage_modifiers : List (ℤ × ℚ) := []
  startup_frames : List ℤ := []
  recovery_frames : List ℤ := []
deriving DecidableEq

/-- The validation performed by the AttackConfig dataclass after
initialisation: negative damage, negative knockback and a hit cap below
one are rejected with a ValueError. -/
def AttackConfig.valid (c : AttackConfig) : Prop :=
  0 ≤ c.base_damage ∧ 0 ≤ c.knockback_force ∧ 1 ≤ c.max_hits_per_target

instance (c : AttackConfig) : Decidable c.valid := by
  unfold AttackConfig.valid
  infer_instance

/-- Dictionary lookup with a default value, as dict.get in Python. -/
def lookupD (m : List (ℤ × ℚ)) (k : ℤ) (d : ℚ) : ℚ :=
  match m.find? (fun p => p.1 == k) with
  | some p => p.2
  | none => d

/-- The mutable AttackState of combat_system.py.  The two dictionaries
(hit registry mapping target id to the set of frames on which the
target was hit, and hit counts) are modelled as total functions with the
Python dict.get defaults. -/
structure AttackState where
  config : Option AttackConfig := none
  current_frame : ℤ := 0
  is_active : Bool := false
  hit_registry : ℤ → List ℤ := fun _ => []
  hit_counts : ℤ → ℤ := fun _ => 0
  hit_stop_remaining : ℤ := 0

/-- The freshly constructed AttackState. -/
def AttackState.mk0 : AttackState := {}

/-- AttackState.begin: reset all state and start a new attack.  The
result does not depend on the previous state, so the embedding takes
only the configuration. -/
def AttackState.begin (config : AttackConfig) : AttackState :=
  { config := some config
    current_frame := 0
    is_active := true
    hit_registry := fun _ => []
    hit_counts := fun _ => 0
    hit_stop_remaining := 0 }

/-- AttackState.update: no-op when inactive; while hit stop is pending,
decrement it and leave the frame untouched; otherwise set the frame. -/
def AttackState.update (s : AttackState) (current_animation_frame : ℤ) : AttackState :=
  if s.is_active = false then s
  else if 0 < s.hit_stop_remaining then
    { s with hit_stop_remaining := s.hit_stop_remaining - 1 }
  else
    { s with current_frame := current_animation_frame }

/-- AttackState.end: deactivate and clear all state. -/
def AttackState.endAttack (s : AttackState) : AttackState :=
  { s with
    is_active := false
    config := none
    hit_registry := fun _ => []
    hit_counts := fun _ => 0
    hit_stop_remaining := 0 }

/-- AttackState.is_hit_frame_active: true when an attack is active, not
in hit stop, and the current frame is one of the configured hit frames. -/
def AttackState.is_hit_frame_active (s : AttackState) : Bool :=
  match s.config with
  | none => false
  | some c =>
    if s.is_active = false then false
    else if 0 < s.hit_stop_remaining then false
    else decide (s.current_frame ∈ c.hit_frames)

/-- AttackState.try_register_hit: returns the Python boolean result
together with the updated state. -/
def AttackState.try_register_hit (s : AttackState) (target_id : ℤ) : Bool × AttackState :=
  if s.is_hit_frame_active = false then (false, s)
  else
    match s.config with
    | none => (false, s)
    | some c =>
      let current_hits := s.hit_counts target_id
      if c.max_hits_per_target ≤ current_hits then (false, s)
      else if s.current_frame ∈ s.hit_registry target_id then (false, s)
      else
        (true,
          { s with
            hit_registry := Function.update s.hit_registry target_id
              (s.current_frame :: s.hit_registry target_id)
            hit_counts := Function.update s.hit_counts target_id (current_hits + 1)
            hit_stop_remaining :=
              if 0 < c.hit_stop_frames then c.hit_stop_frames else s.hit_stop_remaining })

/-- AttackState.get_current_damage: base damage scaled by the per-frame
modifier (default 1). -/
def AttackState.get_current_damage (s : AttackState) : ℚ :=
  match s.config with
  | none => 0
  | some c =>
    if s.is_active = false then 0
    else c.base_damage * lookupD c.frame_damage_modifiers s.current_frame 1

/-- AttackState.get_knockback_vector, over the reals.  With a configured
angle the vector is produced from cosine and sine of the angle in
radians; otherwise it points from the attacker to the target, with a
fallback when the two positions (nearly) coincide. -/
noncomputable def AttackState.get_knockback_vector (s : AttackState)
    (attacker_pos target_pos : ℝ × ℝ) (facing_left : Bool) : ℝ × ℝ :=
  match s.config with
  | none => (0, 0)
  | some c =>
    if s.is_active = false then (0, 0)
    else
      let force : ℝ := (c.knockback_force : ℝ)
      match c.knockback_angle with
      | some a =>
        let angle_rad : ℝ := (a : ℝ) * Real.pi / 180
        let x_dir : ℝ := if facing_left then -1 else 1
        (Real.cos angle_rad * force * x_dir, -(Real.sin angle_rad) * force)
      | none =>
        let dx := target_pos.1 - attacker_pos.1
        let dy := target_pos.2 - attacker_pos.2
        let distance := Real.sqrt (dx * dx + dy * dy)
        if distance < 1 / 1000 then
          let x_dir : ℝ := if facing_left then -1 else 1
          (force * x_dir, -force * (3 / 10))
        else
          (dx / distance * force, dy / distance * force)

/-- A concrete active attack state inside a two-frame hit stop, used to
witness the hit-stop freeze behaviour. -/
def frozenSample : AttackState :=
  { is_active := true, hit_stop_remaining := 2, current_frame := 5 }

/-- Operations performed on an attack state between begin and end:
frame synchronisation and hit registration attempts. -/
inductive AOp where
  | upd (frame : ℤ)
  | tryHit (target : ℤ)
deriving DecidableEq

/-- One operation applied to an attack state. -/
def AttackState.step (s : AttackState) : AOp → AttackState
  | AOp.upd n => s.update n
  | AOp.tryHit t => (s.try_register_hit t).2

/-- Run a list of operations from a given state. -/
def AttackState.run (s : AttackState) (ops : List AOp) : AttackState :=
  ops.foldl AttackState.step s

/-- The frames at which try_register_hit on target t returned true, in
call order, along a list of operations. -/
def successFrames (s : AttackState) (t : ℤ) : List AOp → List ℤ
  | [] => []
  | AOp.upd n :: ops => successFrames (s.update n) t ops
  | AOp.tryHit u :: ops =>
    (if (s.try_register_hit u).1 = true ∧ u = t then [s.current_frame] else []) ++
      successFrames (s.try_register_hit u).2 t ops

/-- A small configuration and operation list used to witness C2. -/
def sampleCfg : AttackConfig := { hit_frames := [3], max_hits_per_target := 1 }

/-- Operations used to witness C2: sync to frame 3, then two attempts on
the same target. -/
def sampleOps : List AOp := [AOp.upd 3, AOp.tryHit 7, AOp.tryHit 7]

end CombatSystem

namespace SkeletonMod

/-- Behavioural states of the skeleton enemy (skeleton.py). -/
inductive SkeletonState where
  | IDLE
  | CHASE
  | ATTACK
  | HURT
  | DEATH
deriving DecidableEq

/-- The AttackConfig dataclass of skeleton.py. -/
structure AttackConfig where
  hit_frames : List ℤ
  damage : ℚ := 1
  knockback : ℚ := 5
deriving DecidableEq

/-- The mutable AttackState dataclass of skeleton.py. -/
structure AttackState where
  is_active : Bool := false
  config : Option AttackConfig := none
  hit_connected : Bool := false
  last_frame_checked : ℤ := -1
deriving DecidableEq

/-- AttackState.reset of skeleton.py. -/
def AttackState.reset (_s : AttackState) : AttackState :=
  { is_active := false
    config := none
    hit_connected := false
    last_frame_checked := -1 }

/-- AttackState.begin of skeleton.py. -/
def AttackState.begin (_s : AttackState) (config : AttackConfig) : AttackState :=
  { is_active := true
    config := some config
    hit_connected := false
    last_frame_checked := -1 }

/-- Skeleton.ATTACK_1_CONFIG: single hit frame 6. -/
def ATTACK_1_CONFIG : AttackConfig :=
  { hit_frames := [6], damage := 1, knockback := 8 }

/-- Skeleton.ATTACK_2_CONFIG: hit frames 5 and 6, fractional damage. -/
def ATTACK_2_CONFIG : AttackConfig :=
  { hit_frames := [5, 6], damage := 3 / 4, knockback := 5 }

/-- The Skeleton entity of skeleton.py.  Sprite surfaces are not
modelled; the length of the frame list currently animated is kept so
that animation completion tests stay faithful (idle 8 frames, walk 10,
attack one 10, attack two 9, hurt 5, death 13).  The alive flag models
whether kill() has not yet removed the sprite from its groups. -/
structure Skeleton where
  state : SkeletonState := SkeletonState.IDLE
  attack_state : AttackState := {}
  animation_index : ℚ := 0
  current_frames_len : ℤ := 8
  rect : Rect
  facing_left : Bool := true
  gravity : ℚ := 0
  ground_y : ℤ
  detection_range : ℤ := 1000
  attack_range : ℤ := 60
  vertical_tolerance : ℤ := 100
  max_health : ℚ := 30
  health : ℚ := 30
  alive : Bool := true

namespace Skeleton

/-- Skeleton.current_frame_index: the animation index truncated to an
integer. -/
def current_frame_index (sk : Skeleton) : ℤ := pyTrunc sk.animation_index

/-- Skeleton.is_in_hit_frame. -/
def is_in_hit_frame (sk : Skeleton) : Bool :=
  if sk.attack_state.is_active = false then false
  else
    match sk.attack_state.config with
    | none => false
    | some c => decide (sk.current_frame_index ∈ c.hit_frames)

/-- Skeleton.should_deal_damage: returns the Python boolean and the
skeleton with the last-frame-checked bookkeeping updated. -/
def should_deal_damage (sk : Skeleton) : Bool × Skeleton :=
  if sk.is_in_hit_frame = false then (false, sk)
  else if sk.attack_state.hit_connected = true then (false, sk)
  else if sk.current_frame_index = sk.attack_state.last_frame_checked then (false, sk)
  else
    (true,
      { sk with attack_state :=
          { sk.attack_state with last_frame_checked := sk.current_frame_index } })

/-- Skeleton.register_hit: mark the current attack as having dealt its
damage. -/
def register_hit (sk : Skeleton) : Skeleton :=
  { sk with attack_state := { sk.attack_state with hit_connected := true } }

/-- Skeleton.get_current_attack_damage. -/
def get_current_attack_damage (sk : Skeleton) : ℚ :=
  match sk.attack_state.config with
  | none => 0
  | some c => c.damage

/-- Skeleton.get_current_attack_knockback. -/
def get_current_attack_knockback (sk : Skeleton) : ℚ :=
  match sk.attack_state.config with
  | none => 0
  | some c => c.knockback

/-- Skeleton.take_damage: ignored while hurt or dying; otherwise reduce
health (floored at zero), restart the animation, reset the attack state
and enter HURT or DEATH. -/
def take_damage (sk : Skeleton) (amount : ℚ) : Skeleton :=
  if sk.state = SkeletonState.HURT ∨ sk.state = SkeletonState.DEATH then sk
  else
    let sk' := { sk with
                   health := max 0 (sk.health - amount)
                   animation_index := 0
                   attack_state := sk.attack_state.reset }
    if sk'.health ≤ 0 then { sk' with state := SkeletonState.DEATH }
    else { sk' with state := SkeletonState.HURT }

/-- Skeleton._apply_gravity: accumulate gravity, move down, clamp to the
ground. -/
def apply_gravity (sk : Skeleton) : Skeleton :=
  let g := sk.gravity + 1
  let r := { sk.rect with y := sk.rect.y + pyTrunc g }
  if sk.ground_y ≤ r.bottom then
    { sk with gravity := 0, rect := { r with y := sk.ground_y - r.h } }
  else
    { sk with gravity := g, rect := r }

/-- Skeleton._begin_attack: enter ATTACK and select one of the two
attack configurations; the Python random draw below one half is passed
in as an oracle. -/
def begin_attack (sk : Skeleton) (rand_lt_half : Bool) : Skeleton :=
  let sk' := { sk with state := SkeletonState.ATTACK, animation_index := 0 }
  if rand_lt_half = true then
    { sk' with current_frames_len := 10
               attack_state := sk'.attack_state.begin ATTACK_1_CONFIG }
  else
    { sk' with current_frames_len := 9
               attack_state := sk'.attack_state.begin ATTACK_2_CONFIG }

/-- Skeleton._chase_player: step toward the player (speed 2.5) and face
the direction of movement; pygame truncates the float result stored in
the integer rect. -/
def chase_player (sk : Skeleton) (player_rect : Rect) : Skeleton :=
  if player_rect.centerx < sk.rect.centerx then
    { sk with rect := { sk.rect with x := pyTrunc ((sk.rect.x : ℚ) - 5 / 2) }
              facing_left := true }
  else
    { sk with rect := { sk.rect with x := pyTrunc ((sk.rect.x : ℚ) + 5 / 2) }
              facing_left := false }

/-- Skeleton._update_ai: no AI during stagger or death; an ongoing
attack runs to completion; otherwise enter attack, chase or idle based
on the distances to the player. -/
def update_ai (sk : Skeleton) (player_rect : Rect) (rand_lt_half : Bool) : Skeleton :=
  if sk.state = SkeletonState.HURT ∨ sk.state = SkeletonState.DEATH then sk
  else
    let dist_x := |sk.rect.centerx - player_rect.centerx|
    let dist_y := |sk.rect.centery - player_rect.centery|
    if sk.state = SkeletonState.ATTACK then sk
    else
      let sk' :=
        if dist_x < sk.attack_range ∧ dist_y < sk.vertical_tolerance then
          sk.begin_attack rand_lt_half
        else if dist_x < sk.detection_range ∧ dist_y < sk.vertical_tolerance then
          { sk with state := SkeletonState.CHASE }
        else
          { sk with state := SkeletonState.IDLE }
      if sk'.state = SkeletonState.CHASE then sk'.chase_player player_rect else sk'

/-- Skeleton._animate_death: death frames (13), advanced at 0.15; kill
on completion. -/
def animate_death (sk : Skeleton) : Skeleton :=
  let sk' := { sk with current_frames_len := 13
                       animation_index := sk.animation_index + 3 / 20 }
  if (sk'.current_frames_len : ℚ) ≤ sk'.animation_index then
    { sk' with alive := false }
  else sk'

/-- Skeleton._animate_hurt: hurt frames (5), advanced at 0.15; back to
IDLE on completion. -/
def animate_hurt (sk : Skeleton) : Skeleton :=
  let sk' := { sk with current_frames_len := 5
                       animation_index := sk.animation_index + 3 / 20 }
  if (sk'.current_frames_len : ℚ) ≤ sk'.animation_index then
    { sk' with state := SkeletonState.IDLE, animation_index := 0 }
  else sk'

/-- Skeleton._animate_attack: advance the current attack frames at
0.15; on completion return to IDLE on idle frames (8) and reset the
attack state. -/
def animate_attack (sk : Skeleton) : Skeleton :=
  let sk' := { sk with animation_index := sk.animation_index + 3 / 20 }
  if (sk'.current_frames_len : ℚ) ≤ sk'.animation_index then
    { sk' with state := SkeletonState.IDLE
               animation_index := 0
               current_frames_len := 8
               attack_state := sk'.attack_state.reset }
  else sk'

/-- Skeleton._animate_walk: walk frames (10), advanced at 0.15,
looping. -/
def animate_walk (sk : Skeleton) : Skeleton :=
  let sk' := { sk with current_frames_len := 10
                       animation_index := sk.animation_index + 3 / 20 }
  if (sk'.current_frames_len : ℚ) ≤ sk'.animation_index then
    { sk' with animation_index := 0 }
  else sk'

/-- Skeleton._animate_idle: idle frames (8), advanced at 0.1, looping. -/
def animate_idle (sk : Skeleton) : Skeleton :=
  let sk' := { sk with current_frames_len := 8
                       animation_index := sk.animation_index + 1 / 10 }
  if (sk'.current_frames_len : ℚ) ≤ sk'.animation_index then
    { sk' with animation_index := 0 }
  else sk'

/-- Skeleton._update_animation: dispatch on the behavioural state.  The
final frame blit of _apply_frame is visual only and not modelled. -/
def update_animation (sk : Skeleton) : Skeleton :=
  match sk.state with
  | SkeletonState.DEATH => sk.animate_death
  | SkeletonState.HURT => sk.animate_hurt
  | SkeletonState.ATTACK => sk.animate_attack
  | SkeletonState.CHASE => sk.animate_walk
  | SkeletonState.IDLE => sk.animate_idle

/-- Skeleton.update: world scroll, gravity, AI, then animation. -/
def update (sk : Skeleton) (player_rect : Rect) (rand_lt_half : Bool)
    (scroll_speed : ℤ) : Skeleton :=
  let sk' := { sk with rect := { sk.rect with x := sk.rect.x - scroll_speed } }
  ((sk'.apply_gravity).update_ai player_rect rand_lt_half).update_animation

end Skeleton

/-- External operations performed on a skeleton by the game loop and by
the combat resolver. -/
inductive SkOp where
  | update (player_rect : Rect) (rand_lt_half : Bool) (scroll_speed : ℤ)
  | takeDamage (amount : ℚ)
  | shouldDeal
  | registerHit

/-- One operation applied to a skeleton. -/
def Skeleton.step (sk : Skeleton) : SkOp → Skeleton
  | SkOp.update pr rb sc => sk.update pr rb sc
  | SkOp.takeDamage amt => sk.take_damage amt
  | SkOp.shouldDeal => sk.should_deal_damage.2
  | SkOp.registerHit => sk.register_hit

/-- Run a list of operations on a skeleton. -/
def Skeleton.run (sk : Skeleton) (ops : List SkOp) : Skeleton :=
  ops.foldl Skeleton.step sk

/-- A freshly spawned skeleton as built by the constructor: idle, full
health, inactive attack state; the sprite rect and ground line are
parameters of the embedding. -/
def Skeleton.spawn (r : Rect) (ground_y : ℤ) : Skeleton :=
  { rect := r, ground_y := ground_y }

end SkeletonMod

namespace PlayerMod

/-- Player states with their priority values (lower value means higher
priority). -/
inductive PlayerState where
  | DEATH
  | HURT
  | ATTACK_THRUST
  | ATTACK_SMASH
  | JUMP_UP
  | JUMP_DOWN
  | RUN
  | IDLE
deriving DecidableEq

/-- The enum value of each player state. -/
def PlayerState.value : PlayerState → ℤ
  | PlayerState.DEATH => 0
  | PlayerState.HURT => 10
  | PlayerState.ATTACK_THRUST => 20
  | PlayerState.ATTACK_SMASH => 21
  | PlayerState.JUMP_UP => 30
  | PlayerState.JUMP_DOWN => 31
  | PlayerState.RUN => 40
  | PlayerState.IDLE => 50

/-- The StateConfig dataclass of player.py. -/
structure StateConfig where
  animation_speed : ℚ := 1 / 5
  loops : Bool := true
  next_state : Option PlayerState := none
  interruptible : Bool := true
  grants_invincibility : Bool := false
  locks_movement : Bool := false
  locks_input : Bool := false
deriving DecidableEq

/-- Player._STATE_CONFIGS: the per-state configuration registry.  Every
state is a key of the Python dict, so the registry is a total
function. -/
def STATE_CONFIGS : PlayerState → StateConfig
  | PlayerState.DEATH =>
    { animation_speed := 3 / 20, loops := false, next_state := none,
      interruptible := false, grants_invincibility := true,
      locks_movement := true, locks_input := true }
  | PlayerState.HURT =>
    { animation_speed := 1 / 5, loops := false, next_state := some PlayerState.IDLE,
      interruptible := false, grants_invincibility := true,
      locks_movement := true, locks_input := true }
  | PlayerState.ATTACK_THRUST =>
    { animation_speed := 6 / 25, loops := false, next_state := some PlayerState.IDLE,
      interruptible := false, grants_invincibility := false,
      locks_movement := true, locks_input := false }
  | PlayerState.ATTACK_SMASH =>
    { animation_speed := 6 / 25, loops := false, next_state := some PlayerState.IDLE,
      interruptible := false, grants_invincibility := false,
      locks_movement := true, locks_input := false }
  | PlayerState.JUMP_UP =>
    { animation_speed := 27 / 100, loops := true, interruptible := true,
      grants_invincibility := false, locks_movement := false }
  | PlayerState.JUMP_DOWN =>
    { animation_speed := 27 / 100, loops := true, interruptible := true,
      grants_invincibility := false, locks_movement := false }
  | PlayerState.RUN =>
    { animation_speed := 27 / 100, loops := true, interruptible := true,
      grants_invincibility := false, locks_movement := false }
  | PlayerState.IDLE =>
    { animation_speed := 27 / 100, loops := true, interruptible := true,
      grants_invincibility := false, locks_movement := false }

/-- Player.THRUST_ATTACK_CONFIG (per-frame hitbox table omitted). -/
def THRUST_ATTACK_CONFIG : CombatSystem.AttackConfig :=
  { hit_frames := [3]
    base_damage := 15
    knockback_force := 8
    knockback_angle := some 30
    hit_stop_frames := 3
    can_hit_multiple := true
    max_hits_per_target := 1
    frame_damage_modifiers := [(3, 1 / 2)]
    startup_frames := [0, 1, 2]
    recovery_frames := [5, 6, 7, 8] }

/-- Player.SMASH_ATTACK_CONFIG (per-frame hitbox table omitted). -/
def SMASH_ATTACK_CONFIG : CombatSystem.AttackConfig :=
  { hit_frames := [3, 7, 11]
    base_damage := 25
    knockback_force := 15
    knockback_angle := some 45
    hit_stop_frames := 5
    can_hit_multiple := true
    max_hits_per_target := 2
    frame_damage_modifiers := [(3, 3 / 10), (7, 1 / 2), (11, 1 / 5)]
    startup_frames := [0, 1, 2, 3, 4]
    recovery_frames := [13, 14, 15, 16] }

/-- The Player entity of player.py, restricted to the fields the
verified properties touch.  Sprite frame lists, the footstep controller
and the audio manager handle are not modelled; sounds played are
returned by the operations that play them.  The default rect stands for
the sprite-derived geometry of the constructor. -/
structure Player where
  state : PlayerState := PlayerState.IDLE
  health : ℤ := 100
  max_health : ℤ := 100
  animation_index : ℚ := 0
  attack_state : CombatSystem.AttackState := {}
  current_attack_config : Option CombatSystem.AttackConfig := none
  invincibility_timer : ℚ := 0
  invincibility_duration : ℚ := 0
  rect : Rect := { x := 0, y := 0, w := 32, h := 32 }
  facing_left : Bool := false
  direction : ℤ := 0
  gravity : ℚ := 0

namespace Player

/-- Player.is_attacking. -/
def is_attacking (p : Player) : Bool :=
  decide (p.state = PlayerState.ATTACK_THRUST ∨ p.state = PlayerState.ATTACK_SMASH)

/-- Player.is_invincible: the state grants invincibility or the
invincibility timer is running. -/
def is_invincible (p : Player) : Bool :=
  if (STATE_CONFIGS p.state).grants_invincibility = true then true
  else decide (0 < p.invincibility_timer)

/-- Player._can_transition_to. -/
def can_transition_to (p : Player) (target_state : PlayerState) : Bool :=
  if target_state = p.state then false
  else if target_state.value < p.state.value then true
  else (STATE_CONFIGS p.state).interruptible

/-- Player._transition_to: end any active attack when leaving the attack
states, then switch state and restart the animation.  The footstep
reset and the frame-list switch are visual or audio details without
bearing on the verified properties. -/
def transition_to (p : Player) (new_state : PlayerState) : Player :=
  let p' :=
    if p.is_attacking = true ∧ new_state ≠ PlayerState.ATTACK_THRUST ∧
        new_state ≠ PlayerState.ATTACK_SMASH then
      { p with attack_state := p.attack_state.endAttack
               current_attack_config := none }
    else p
  { p' with state := new_state, animation_index := 0 }

/-- Player.take_damage: blocked by invincibility; otherwise subtract the
truncated amount (floored at zero health) and enter DEATH or HURT,
playing the matching sound; a hurt player is granted extended
invincibility. -/
def take_damage (p : Player) (amount : ℚ) : Bool × Player × List String :=
  if p.is_invincible = true then (false, p, [])
  else
    let p' := { p with health := max 0 (p.health - pyTrunc amount) }
    if p'.health ≤ 0 then
      (true, p'.transition_to PlayerState.DEATH, ["death"])
    else
      let p2 := p'.transition_to PlayerState.HURT
      (true, { p2 with invincibility_duration := 3 / 10 }, ["player_hurt"])

end Player

end PlayerMod

namespace GameStateMod

open SkeletonMod PlayerMod

/-- Outcome of one skeleton attack pass: the two entities, the score and
the sounds played, in order. -/
structure SkelAttackOutcome where
  player : Player
  skeleton : Skeleton
  score : ℤ
  audio : List String

/-- GameState._apply_knockback_to_player: the player class has no
apply_knockback method, so the fallback applies a truncated horizontal
offset clamped to the screen. -/
def apply_knockback_to_player (player : Player) (force : ℚ) (screen_width : ℤ) : Player :=
  let x1 := max (player.rect.x + pyTrunc force) 0
  let x2 := if screen_width < x1 + player.rect.w then screen_width - player.rect.w else x1
  { player with rect := { player.rect with x := x2 } }

/-- GameState._handle_skeleton_attack.  The skeleton class has no
get_attack_hitbox method and the player has no hitbox attribute or
trigger_hit_flash method, so the hasattr branches resolve to the plain
rects and to no visual feedback; the debug branch prints only. -/
def handle_skeleton_attack (player : Player) (skeleton : Skeleton) (score : ℤ)
    (screen_width : ℤ) : SkelAttackOutcome :=
  if skeleton.state ≠ SkeletonState.ATTACK then
    { player := player, skeleton := skeleton, score := score, audio := [] }
  else
    let sd := skeleton.should_deal_damage
    let skeleton1 := sd.2
    if sd.1 = false then
      { player := player, skeleton := skeleton1, score := score, audio := [] }
    else
      let skeleton_hitbox := skeleton1.rect
      let player_hitbox := player.rect
      if skeleton_hitbox.truthy = true ∧
          skeleton_hitbox.colliderect player_hitbox = false then
        { player := player, skeleton := skeleton1, score := score, audio := [] }
      else
        let skeleton2 := skeleton1.register_hit
        let damage := skeleton2.get_current_attack_damage
        let td := player.take_damage damage
        let player1 := td.2.1
        let sounds := td.2.2
        if td.1 = false then
          { player := player1, skeleton := skeleton2, score := score, audio := sounds }
        else
          let knockback := skeleton2.get_current_attack_knockback
          let player2 :=
            if 0 < knockback then
              let dir : ℤ :=
                if player1.rect.centerx < skeleton2.rect.centerx then -1 else 1
              apply_knockback_to_player player1 (knockback * (dir : ℚ)) screen_width
            else player1
          { player := player2, skeleton := skeleton2, score := max 0 (score - 5),
            audio := sounds ++ ["player_hit"] ++ ["player_hurt"] }

/-- GameState._process_enemy_attacks: skip everything while the player
is invincible, otherwise run the skeleton handler over every skeleton
obstacle in order. -/
def process_enemy_attacks (player : Player) (skeletons : List Skeleton) (score : ℤ)
    (screen_width : ℤ) : Player × List Skeleton × ℤ × List String :=
  if player.is_invincible = true then (player, skeletons, score, [])
  else
    let final := skeletons.foldl
      (fun acc sk =>
        let o := handle_skeleton_attack acc.1 sk acc.2.2.1 screen_width
        (o.player, acc.2.1 ++ [o.skeleton], o.score, acc.2.2.2 ++ o.audio))
      (player, ([] : List Skeleton), score, ([] : List String))
    final

end GameStateMod

namespace Samples

open CombatSystem SkeletonMod PlayerMod

/-- A player in the HURT state: its state config grants invincibility. -/
def hurtPlayer : Player := { state := PlayerState.HURT }

/-- A player in the DEATH state. -/
def deadPlayer : Player := { state := PlayerState.DEATH }

/-- A freshly constructed player: idle, full health, no timers. -/
def basePlayer : Player := {}

/-- The player rect used in the skeleton traces: resting just above the
ground line at height 100, horizontally on top of the skeleton. -/
def tracePlayerRect : Rect := { x := 0, y := 86, w := 10, h := 10 }

/-- A skeleton mid-attack with the second attack configuration, on its
first hit frame (frame 5), no hit registered yet, overlapping the
origin. -/
def attackingSkeleton : Skeleton :=
  { state := SkeletonState.ATTACK
    attack_state :=
      { is_active := true
        config := some ATTACK_2_CONFIG
        hit_connected := false
        last_frame_checked := -1 }
    animation_index := 5
    current_frames_len := 9
    rect := { x := 0, y := 0, w := 50, h := 50 }
    ground_y := 1000 }

/-- An attack state whose configuration has direction-based knockback
and zero force. -/
def zeroKnockState : CombatSystem.AttackState :=
  { config := some { knockback_force := 0 }, is_active := true }

/-- An attack state carrying the smash configuration (fixed 45 degree
knockback angle). -/
def smashKnockState : CombatSystem.AttackState :=
  { config := some SMASH_ATTACK_CONFIG, is_active := true }

/-- An attack state with the default configuration: direction-based
knockback of force 5. -/
def dirKnockState : CombatSystem.AttackState :=
  { config := some {}, is_active := true }


/-- Stage one of the smash scenario: the smash attack begun and synced
to hit frame 3. -/
def smashS1 : CombatSystem.AttackState :=
  (CombatSystem.AttackState.begin PlayerMod.SMASH_ATTACK_CONFIG).update 3

/-- First registration attempt of the smash scenario (frame 3). -/
def smashR1 : Bool × CombatSystem.AttackState := smashS1.try_register_hit 42

/-- Stage two: five updates drain the hit stop, then sync to frame 7. -/
def smashS2 : CombatSystem.AttackState :=
  (((((smashR1.2.update 3).update 3).update 3).update 3).update 3).update 7

/-- Second registration attempt of the smash scenario (frame 7). -/
def smashR2 : Bool × CombatSystem.AttackState := smashS2.try_register_hit 42

/-- Stage three: five more updates drain the hit stop, then sync to
frame 11. -/
def smashS3 : CombatSystem.AttackState :=
  (((((smashR2.2.update 7).update 7).update 7).update 7).update 7).update 11

/-- Third registration attempt of the smash scenario (frame 11). -/
def smashR3 : Bool × CombatSystem.AttackState := smashS3.try_register_hit 42

/-- The skeleton of the two-trues scenario after 34 updates next to the
player: attacking with the second configuration on hit frame 5. -/
def frame5Skeleton : SkeletonMod.Skeleton :=
  (SkeletonMod.Skeleton.spawn { x := 0, y := 0, w := 10, h := 10 } 100).run
    (List.replicate 34 (SkeletonMod.SkOp.update tracePlayerRect false 0))

/-- First damage query of the two-trues scenario, on frame 5. -/
def frame5Query : Bool × SkeletonMod.Skeleton := frame5Skeleton.should_deal_damage

/-- The same skeleton six updates later, on hit frame 6 of the same
attack, register_hit never called. -/
def frame6Skeleton : SkeletonMod.Skeleton :=
  frame5Query.2.run (List.replicate 6 (SkeletonMod.SkOp.update tracePlayerRect false 0))

/-- Second damage query of the two-trues scenario, on frame 6. -/
def frame6Query : Bool × SkeletonMod.Skeleton := frame6Skeleton.should_deal_damage

end Samples

end PixelRunner

namespace PixelRunner

namespace CombatSystem




/-
Theorems.  Everything below this point is a theorem about the
definitions above; no further definitions are introduced.
-/

/-- C3: during hit stop an update call freezes the current frame and
decrements the hit stop counter by exactly one, for any frame argument;
when the attack is inactive, update is a complete no-op. -/
theorem C3_update_hit_stop_freeze (s : AttackState) (frame : ℤ) :
    (s.is_active = true → 0 < s.hit_stop_remaining →
      (s.update frame).current_frame = s.current_frame ∧
        (s.update frame).hit_stop_remaining = s.hit_stop_remaining - 1) ∧
    (s.is_active = false → s.update frame = s) := by
  constructor
  · intro ha hs
    simp [AttackState.update, ha, hs]
  · intro ha
    simp [AttackState.update, ha]

/-- Witness for C3 at a concrete active state in hit stop and at the
concrete inactive initial state. -/
theorem C3_update_hit_stop_freeze_witness :
    ((frozenSample.update 9).current_frame = 5 ∧
      (frozenSample.update 9).hit_stop_remaining = 2 - 1) ∧
    AttackState.mk0.update 9 = AttackState.mk0 :=
  ⟨(C3_update_hit_stop_freeze frozenSample 9).1 rfl (by decide),
    (C3_update_hit_stop_freeze AttackState.mk0 9).2 rfl⟩

end CombatSystem

end PixelRunner

namespace PixelRunner

namespace CombatSystem

/-- An update call never touches the configuration, the hit registry or
the hit counts. -/
theorem update_preserves_registry (s : AttackState) (n : ℤ) :
    (s.update n).config = s.config ∧
      (s.update n).hit_registry = s.hit_registry ∧
      (s.update n).hit_counts = s.hit_counts := by
  unfold AttackState.update
  split_ifs <;> exact ⟨rfl, rfl, rfl⟩

/-- Case analysis of try_register_hit: either the call fails and returns
the state unchanged, or it succeeds, in which case the hit count for
the target was strictly below the cap, the current frame was not yet in
the registry for that target, and the registry and count for the target
are extended while all other targets are untouched. -/
theorem try_register_hit_shape (s : AttackState) (t : ℤ) :
    s.try_register_hit t = (false, s) ∨
    ((s.try_register_hit t).1 = true ∧ ∃ c, s.config = some c ∧
      s.hit_counts t < c.max_hits_per_target ∧
      s.current_frame ∉ s.hit_registry t ∧
      (s.try_register_hit t).2.config = some c ∧
      (s.try_register_hit t).2.hit_registry t = s.current_frame :: s.hit_registry t ∧
      (s.try_register_hit t).2.hit_counts t = s.hit_counts t + 1 ∧
      (∀ u, u ≠ t → (s.try_register_hit t).2.hit_registry u = s.hit_registry u) ∧
      (∀ u, u ≠ t → (s.try_register_hit t).2.hit_counts u = s.hit_counts u)) := by
  rcases hc : s.config with _ | c
  · left
    have h : s.is_hit_frame_active = false := by
      simp [AttackState.is_hit_frame_active, hc]
    simp [AttackState.try_register_hit, h]
  · by_cases h1 : s.is_hit_frame_active = false
    · left
      simp [AttackState.try_register_hit, h1]
    · by_cases h2 : c.max_hits_per_target ≤ s.hit_counts t
      · left
        simp [AttackState.try_register_hit, h1, hc, h2]
      · by_cases h3 : s.current_frame ∈ s.hit_registry t
        · left
          simp [AttackState.try_register_hit, h1, hc, h2, h3]
        · right
          have hres : s.try_register_hit t =
              (true,
                { s with
                  hit_registry := Function.update s.hit_registry t
                    (s.current_frame :: s.hit_registry t)
                  hit_counts := Function.update s.hit_counts t (s.hit_counts t + 1)
                  hit_stop_remaining :=
                    if 0 < c.hit_stop_frames then c.hit_stop_frames
                    else s.hit_stop_remaining }) := by
            simp [AttackState.try_register_hit, h1, hc, h2, h3]
          refine ⟨by rw [hres], c, rfl, lt_of_not_le h2, h3, ?_, ?_, ?_, ?_, ?_⟩
          · rw [hres]; exact hc
          · rw [hres]; simp [Function.update_same]
          · rw [hres]; simp [Function.update_same]
          · intro u hu
            rw [hres]
            simp [Function.update_noteq hu]
          · intro u hu
            rw [hres]
            simp [Function.update_noteq hu]

/-- Main invariant of the hit registry along a run: the successes still
to come, together with the frames already registered, never exceed the
per-target cap, and the combined frame list has no duplicates. -/
theorem successFrames_spec (cfg : AttackConfig) (t : ℤ) :
    ∀ (ops : List AOp) (s : AttackState),
      s.config = some cfg →
      (s.hit_registry t).Nodup →
      s.hit_counts t = ((s.hit_registry t).length : ℤ) →
      ((s.hit_registry t).length : ℤ) ≤ cfg.max_hits_per_target →
      ((successFrames s t ops).length : ℤ) + ((s.hit_registry t).length : ℤ)
          ≤ cfg.max_hits_per_target ∧
        ((successFrames s t ops).reverse ++ s.hit_registry t).Nodup := by
  intro ops
  induction ops with
  | nil =>
    intro s _ hnd _ hle
    simpa [successFrames] using ⟨hle, hnd⟩
  | cons op ops ih =>
    intro s hc hnd hcount hle
    cases op with
    | upd n =>
      obtain ⟨e1, e2, e3⟩ := update_preserves_registry s n
      have h := ih (s.update n) (by rw [e1, hc]) (by rw [e2]; exact hnd)
        (by rw [e2, e3]; exact hcount) (by rw [e2]; exact hle)
      rw [e2] at h
      simpa [successFrames] using h
    | tryHit u =>
      rcases try_register_hit_shape s u with hfail | ⟨hb, c, hc', hlt, hnotmem, hc2, hreg, hcnt, hrego, hcnto⟩
      · have hb : ¬ ((s.try_register_hit u).1 = true ∧ u = t) := by
          rw [hfail]; simp
        have h2 : (s.try_register_hit u).2 = s := by rw [hfail]
        simp only [successFrames, if_neg hb, h2, List.nil_append]
        exact ih s hc hnd hcount hle
      · have hcc : c = cfg := by
          rw [hc] at hc'
          exact (Option.some_injective _ hc').symm
        subst hcc
        by_cases hu : u = t
        · subst hu
          have hsf : successFrames s u (AOp.tryHit u :: ops) =
              s.current_frame :: successFrames (s.try_register_hit u).2 u ops := by
            simp [successFrames, hb]
          have hlen : ((s.hit_registry u).length : ℤ) < c.max_hits_per_target := by
            rw [hcount] at hlt
            exact_mod_cast hlt
          have h := ih (s.try_register_hit u).2 hc2
            (by rw [hreg]; exact List.Nodup.cons hnotmem hnd)
            (by rw [hreg, hcnt, hcount]; simp [List.length_cons])
            (by rw [hreg]; simp only [List.length_cons]; push_cast; linarith)
          rw [hreg] at h
          constructor
          · have h1 := h.1
            rw [hsf]
            simp only [List.length_cons] at h1 ⊢
            push_cast at h1 ⊢
            linarith
          · have h2 := h.2
            rw [hsf]
            simpa [List.reverse_cons, List.append_assoc] using h2
        · have hsf : successFrames s t (AOp.tryHit u :: ops) =
              successFrames (s.try_register_hit u).2 t ops := by
            simp [successFrames, hu]
          have h := ih (s.try_register_hit u).2 hc2
            (by rw [hrego t (Ne.symm hu)]; exact hnd)
            (by rw [hrego t (Ne.symm hu), hcnto t (Ne.symm hu)]; exact hcount)
            (by rw [hrego t (Ne.symm hu)]; exact hle)
          rw [hrego t (Ne.symm hu)] at h
          rw [hsf]
          exact h

/-- C2: for a valid attack configuration with per-target cap k, along
any sequence of update and try_register_hit calls after begin, the
calls for a fixed target return true at most k times in total, and the
frame values at the successful calls are pairwise distinct (never two
successes on the identical current frame). -/
theorem C2_try_register_hit_bounded (cfg : AttackConfig) (hv : cfg.valid)
    (ops : List AOp) (t : ℤ) :
    ((successFrames (AttackState.begin cfg) t ops).length : ℤ) ≤ cfg.max_hits_per_target ∧
      (successFrames (AttackState.begin cfg) t ops).Nodup := by
  have h0 : ((AttackState.begin cfg).hit_registry t) = [] := rfl
  have h := successFrames_spec cfg t ops (AttackState.begin cfg) rfl
    (by rw [h0]; exact List.nodup_nil)
    (by rw [h0]; rfl)
    (by rw [h0]; simpa using le_trans zero_le_one hv.2.2)
  rw [h0] at h
  refine ⟨by simpa using h.1, ?_⟩
  have := h.2
  simpa [List.nodup_reverse] using this

/-- Witness for C2 at the concrete sample configuration. -/
theorem C2_try_register_hit_bounded_witness :
    ((successFrames (AttackState.begin sampleCfg) 7 sampleOps).length : ℤ)
        ≤ sampleCfg.max_hits_per_target ∧
      (successFrames (AttackState.begin sampleCfg) 7 sampleOps).Nodup :=
  C2_try_register_hit_bounded sampleCfg (by decide) sampleOps 7

end CombatSystem

end PixelRunner

namespace PixelRunner

namespace PlayerMod

section

attribute [local semireducible] Rat.add Rat.mul Rat.sub Rat.inv Rat.ofScientific

/-- Transition never changes what state it targets: the new state is
installed verbatim. -/
theorem transition_to_state (p : Player) (ns : PlayerState) :
    (p.transition_to ns).state = ns := rfl

/-- Transition never touches health. -/
theorem transition_to_health (p : Player) (ns : PlayerState) :
    (p.transition_to ns).health = p.health := by
  simp only [Player.transition_to]
  split_ifs <;> rfl

/-- C4: the transition predicate holds exactly when the target differs
from the current state and either the target has a numerically lower
priority value or the current state is marked interruptible; and since
DEATH is non-interruptible with the lowest value, no request out of
DEATH ever succeeds. -/
theorem C4_can_transition_to_rule (p : Player) (target : PlayerState) :
    (p.can_transition_to target = true ↔
      (target ≠ p.state ∧
        (target.value < p.state.value ∨
          (STATE_CONFIGS p.state).interruptible = true))) ∧
    (p.state = PlayerState.DEATH → p.can_transition_to target = false) := by
  constructor
  · unfold Player.can_transition_to
    split_ifs with h1 h2
    · simp [h1]
    · simp [h1, h2]
    · simp [h1, h2]
  · intro h
    unfold Player.can_transition_to
    rw [h]
    cases target <;> decide

/-- Witness for C4: out of the DEATH state no transition request
succeeds, at the concrete dead player and target IDLE. -/
theorem C4_can_transition_to_rule_witness :
    Samples.deadPlayer.can_transition_to PlayerState.IDLE = false :=
  (C4_can_transition_to_rule Samples.deadPlayer PlayerState.IDLE).2 rfl

/-- C5: damage taken while invincible is rejected: the call returns
false, the player record is returned unchanged in every field, and no
sound is played. -/
theorem C5_take_damage_invincible_noop (p : Player) (amount : ℚ)
    (h : p.is_invincible = true) :
    p.take_damage amount = (false, p, []) := by
  simp [Player.take_damage, h]

/-- Witness for C5 at the concrete hurt (hence invincible) player. -/
theorem C5_take_damage_invincible_noop_witness :
    Samples.hurtPlayer.take_damage 5 = (false, Samples.hurtPlayer, []) :=
  C5_take_damage_invincible_noop Samples.hurtPlayer 5 (by decide)

/-- C7: a non-invincible player with positive health hit for a strictly
fractional amount (between zero and one) takes the hit: the call
returns true and the player is staggered into HURT, yet health is
numerically unchanged because the amount is truncated to zero. -/
theorem C7_fractional_damage_staggers (p : Player) (amount : ℚ)
    (hinv : p.is_invincible = false) (hh : 0 < p.health)
    (h0 : 0 < amount) (h1 : amount < 1) :
    (p.take_damage amount).1 = true ∧
      (p.take_damage amount).2.1.state = PlayerState.HURT ∧
      (p.take_damage amount).2.1.health = p.health := by
  have htr : pyTrunc amount = 0 := by
    unfold pyTrunc
    rw [if_neg (not_lt.mpr h0.le)]
    exact Int.floor_eq_zero_iff.mpr ⟨h0.le, h1⟩
  have hph : max 0 (p.health - pyTrunc amount) = p.health := by
    rw [htr, sub_zero]
    exact max_eq_right hh.le
  unfold Player.take_damage
  rw [hinv]
  simp only [Bool.false_eq_true, if_false, hph]
  rw [if_neg (not_le.mpr hh)]
  refine ⟨rfl, ?_, ?_⟩
  · show (p.transition_to PlayerState.HURT).state = PlayerState.HURT
    exact transition_to_state _ _
  · show (p.transition_to PlayerState.HURT).health = p.health
    exact transition_to_health _ _

/-- Witness for C7: the freshly spawned player hit with the skeleton
secondary attack damage of three quarters is staggered with unchanged
health. -/
theorem C7_fractional_damage_staggers_witness :
    (Samples.basePlayer.take_damage SkeletonMod.ATTACK_2_CONFIG.damage).1 = true ∧
      (Samples.basePlayer.take_damage SkeletonMod.ATTACK_2_CONFIG.damage).2.1.state
          = PlayerState.HURT ∧
      (Samples.basePlayer.take_damage SkeletonMod.ATTACK_2_CONFIG.damage).2.1.health
          = Samples.basePlayer.health :=
  C7_fractional_damage_staggers Samples.basePlayer SkeletonMod.ATTACK_2_CONFIG.damage
    (by decide) (by decide) (by decide) (by decide)

end

end PlayerMod

end PixelRunner

namespace PixelRunner

namespace PlayerMod

section

attribute [local semireducible] Rat.add Rat.mul Rat.sub Rat.inv Rat.ofScientific

/-- C9: with the smash configuration, a target registered on frames 3
and 7 is hit exactly twice for damages 7.5 and 12.5 (20 in total), and
a further registration attempt on frame 11 is rejected by the two-hit
cap.  The five intermediate updates between hits drain the five-frame
hit stop installed by each successful hit. -/
theorem C9_smash_two_hits_then_capped :
    Samples.smashR1.1 = true ∧
      Samples.smashR1.2.get_current_damage = 15 / 2 ∧
      Samples.smashR2.1 = true ∧
      Samples.smashR2.2.get_current_damage = 25 / 2 ∧
      Samples.smashR1.2.get_current_damage + Samples.smashR2.2.get_current_damage = 20 ∧
      Samples.smashR3.1 = false := by
  decide

end

end PlayerMod

end PixelRunner

namespace PixelRunner

open CombatSystem

/-- C8 counterexample: the claim does not hold of every active attack
state at coincident positions.  With direction-based knockback of zero
force the fallback is the zero vector, and with the smash configuration
(a configured 45 degree angle) the returned vector is the angle-based
one, whose vertical component differs from the fallback vector of the
claim. -/
theorem C8_counterexample_not_always_fallback :
    Samples.zeroKnockState.get_knockback_vector (0, 0) (0, 0) false = (0, 0) ∧
      Samples.smashKnockState.get_knockback_vector (0, 0) (0, 0) false ≠
        ((PlayerMod.SMASH_ATTACK_CONFIG.knockback_force : ℝ) * 1,
          -(PlayerMod.SMASH_ATTACK_CONFIG.knockback_force : ℝ) * (3 / 10)) := by
  constructor
  · simp only [Samples.zeroKnockState, AttackState.get_knockback_vector]
    norm_num [Real.sqrt_zero]
  · intro hEq
    have h2 := congrArg Prod.snd hEq
    simp only [Samples.smashKnockState, AttackState.get_knockback_vector,
      PlayerMod.SMASH_ATTACK_CONFIG] at h2
    norm_num at h2
    have hrad : (45 : ℝ) * Real.pi / 180 = Real.pi / 4 := by ring
    rw [hrad, Real.sin_pi_div_four] at h2
    have h3 : Real.sqrt 2 ^ 2 = 2 := Real.sq_sqrt (by norm_num)
    have hs : Real.sqrt 2 = 3 / 5 := by linarith
    rw [hs] at h3
    norm_num at h3

/-- C8 amended: for an active attack state whose configuration uses
direction-based knockback (no configured angle) and positive force, the
knockback vector at coincident attacker and target positions is the
fallback (force times the facing sign, minus force times three tenths),
and that vector is non-zero. -/
theorem C8_direction_knockback_fallback (s : AttackState)
    (c : AttackConfig) (pos : ℝ × ℝ) (facing_left : Bool)
    (hact : s.is_active = true) (hc : s.config = some c)
    (hangle : c.knockback_angle = none) (hforce : 0 < c.knockback_force) :
    s.get_knockback_vector pos pos facing_left =
      ((c.knockback_force : ℝ) * (if facing_left = true then -1 else 1),
        -(c.knockback_force : ℝ) * (3 / 10)) ∧
      s.get_knockback_vector pos pos facing_left ≠ (0, 0) := by
  have hres : s.get_knockback_vector pos pos facing_left =
      ((c.knockback_force : ℝ) * (if facing_left = true then -1 else 1),
        -(c.knockback_force : ℝ) * (3 / 10)) := by
    simp only [AttackState.get_knockback_vector, hc, hangle, hact]
    norm_num [Real.sqrt_zero]
  refine ⟨hres, ?_⟩
  rw [hres]
  intro hEq
  have h1 := congrArg Prod.fst hEq
  have hforceR : (0 : ℝ) < (c.knockback_force : ℝ) := by exact_mod_cast hforce
  cases facing_left <;> simp at h1 <;> linarith

/-- Witness for the amended C8 at the default attack configuration
(direction-based knockback, force five). -/
theorem C8_direction_knockback_fallback_witness :
    Samples.dirKnockState.get_knockback_vector (3, 4) (3, 4) false =
      ((({} : AttackConfig).knockback_force : ℝ) * (if false = true then -1 else 1),
        -(({} : AttackConfig).knockback_force : ℝ) * (3 / 10)) ∧
      Samples.dirKnockState.get_knockback_vector (3, 4) (3, 4) false ≠ (0, 0) :=
  C8_direction_knockback_fallback Samples.dirKnockState {} (3, 4) false rfl rfl rfl
    (by norm_num)

end PixelRunner

namespace PixelRunner

namespace SkeletonMod

section

attribute [local semireducible] Rat.add Rat.mul Rat.sub Rat.inv Rat.ofScientific

set_option maxRecDepth 100000 in
/-- C6 evaluation: within a single attack sequence using the second
attack configuration (hit frames 5 and 6) and with register_hit never
called, should_deal_damage returns true on frame 5 and then again on
frame 6.  The skeleton spawns on top of the player, begins the attack
on the first update, reaches frame 5 after 34 updates and frame 6 after
6 more, all inside one begin-to-reset cycle. -/
theorem C6_should_deal_damage_twice_eval :
    Samples.frame5Query.1 = true ∧ Samples.frame6Query.1 = true ∧
      Samples.frame5Skeleton.attack_state.config = some ATTACK_2_CONFIG ∧
      Samples.frame6Skeleton.attack_state.config = some ATTACK_2_CONFIG ∧
      Samples.frame5Skeleton.attack_state.hit_connected = false ∧
      Samples.frame6Skeleton.attack_state.hit_connected = false ∧
      Samples.frame5Skeleton.current_frame_index = 5 ∧
      Samples.frame6Skeleton.current_frame_index = 6 := by
  decide

end

end SkeletonMod

end PixelRunner

namespace PixelRunner

namespace SkeletonMod

/-- register_hit changes only the hit-connected flag. -/
theorem register_hit_fields (sk : Skeleton) :
    (sk.register_hit).state = sk.state ∧
      (sk.register_hit).attack_state.is_active = sk.attack_state.is_active :=
  ⟨rfl, rfl⟩

/-- should_deal_damage never changes the behavioural state or the
activity of the attack. -/
theorem should_deal_fields (sk : Skeleton) :
    (sk.should_deal_damage).2.state = sk.state ∧
      (sk.should_deal_damage).2.attack_state.is_active = sk.attack_state.is_active := by
  simp only [Skeleton.should_deal_damage]
  split_ifs <;> exact ⟨rfl, rfl⟩

/-- Gravity only moves the rect. -/
theorem apply_gravity_fields (sk : Skeleton) :
    (sk.apply_gravity).state = sk.state ∧
      (sk.apply_gravity).attack_state = sk.attack_state := by
  simp only [Skeleton.apply_gravity]
  split_ifs <;> exact ⟨rfl, rfl⟩

/-- Chasing only moves the rect and the facing. -/
theorem chase_player_fields (sk : Skeleton) (pr : Rect) :
    (sk.chase_player pr).state = sk.state ∧
      (sk.chase_player pr).attack_state = sk.attack_state := by
  simp only [Skeleton.chase_player]
  split_ifs <;> exact ⟨rfl, rfl⟩

/-- Beginning an attack puts the skeleton in the ATTACK state. -/
theorem begin_attack_state (sk : Skeleton) (rb : Bool) :
    (sk.begin_attack rb).state = SkeletonState.ATTACK := by
  simp only [Skeleton.begin_attack]
  split_ifs <;> rfl

/-- The AI step is the identity during stagger and death. -/
theorem update_ai_of_stagger (sk : Skeleton) (pr : Rect) (rb : Bool)
    (h : sk.state = SkeletonState.HURT ∨ sk.state = SkeletonState.DEATH) :
    sk.update_ai pr rb = sk := by
  simp only [Skeleton.update_ai]
  rw [if_pos h]

/-- Away from stagger and death, the AI step always lands in ATTACK,
CHASE or IDLE. -/
theorem update_ai_state_cases (sk : Skeleton) (pr : Rect) (rb : Bool)
    (h : ¬(sk.state = SkeletonState.HURT ∨ sk.state = SkeletonState.DEATH)) :
    (sk.update_ai pr rb).state = SkeletonState.ATTACK ∨
      (sk.update_ai pr rb).state = SkeletonState.CHASE ∨
      (sk.update_ai pr rb).state = SkeletonState.IDLE := by
  simp only [Skeleton.update_ai]
  rw [if_neg h]
  by_cases h1 : sk.state = SkeletonState.ATTACK
  · rw [if_pos h1]
    exact Or.inl h1
  · rw [if_neg h1]
    by_cases h2 : |sk.rect.centerx - pr.centerx| < sk.attack_range ∧
        |sk.rect.centery - pr.centery| < sk.vertical_tolerance
    · rw [if_pos h2]
      have hb := begin_attack_state sk rb
      rw [if_neg (by simp [hb])]
      exact Or.inl hb
    · rw [if_neg h2]
      by_cases h3 : |sk.rect.centerx - pr.centerx| < sk.detection_range ∧
          |sk.rect.centery - pr.centery| < sk.vertical_tolerance
      · rw [if_pos h3]
        rw [if_pos rfl]
        exact Or.inr (Or.inl (chase_player_fields _ pr).1)
      · rw [if_neg h3]
        rw [if_neg (by simp)]
        exact Or.inr (Or.inr rfl)

/-- The animation step preserves the invariant that a staggered or dead
skeleton carries no active attack. -/
theorem update_animation_preserves_inactive (sk : Skeleton)
    (h : (sk.state = SkeletonState.HURT ∨ sk.state = SkeletonState.DEATH) →
      sk.attack_state.is_active = false)
    (hs : (sk.update_animation).state = SkeletonState.HURT ∨
      (sk.update_animation).state = SkeletonState.DEATH) :
    (sk.update_animation).attack_state.is_active = false := by
  cases hst : sk.state with
  | IDLE =>
    simp only [Skeleton.update_animation, hst, Skeleton.animate_idle] at hs ⊢
    split_ifs at hs ⊢ <;> simp [hst] at hs
  | CHASE =>
    simp only [Skeleton.update_animation, hst, Skeleton.animate_walk] at hs ⊢
    split_ifs at hs ⊢ <;> simp [hst] at hs
  | ATTACK =>
    simp only [Skeleton.update_animation, hst, Skeleton.animate_attack] at hs ⊢
    split_ifs at hs ⊢
    · rfl
    · simp [hst] at hs
  | HURT =>
    have hin : sk.attack_state.is_active = false := h (Or.inl hst)
    simp only [Skeleton.update_animation, hst, Skeleton.animate_hurt]
    split_ifs <;> simpa using hin
  | DEATH =>
    have hin : sk.attack_state.is_active = false := h (Or.inr hst)
    simp only [Skeleton.update_animation, hst, Skeleton.animate_death]
    split_ifs <;> simpa using hin

/-- The full update entry point decomposed into its stages. -/
theorem step_update_eq (sk : Skeleton) (pr : Rect) (rb : Bool) (sc : ℤ) :
    sk.step (SkOp.update pr rb sc) =
      ((({ sk with rect := { sk.rect with x := sk.rect.x - sc } }).apply_gravity).update_ai
        pr rb).update_animation := rfl

/-- Every external operation preserves the invariant that a staggered
or dead skeleton carries no active attack. -/
theorem step_preserves_inactive (sk : Skeleton) (op : SkOp)
    (h : (sk.state = SkeletonState.HURT ∨ sk.state = SkeletonState.DEATH) →
      sk.attack_state.is_active = false) :
    ((sk.step op).state = SkeletonState.HURT ∨
      (sk.step op).state = SkeletonState.DEATH) →
      (sk.step op).attack_state.is_active = false := by
  cases op with
  | takeDamage amt =>
    intro hs
    show (sk.take_damage amt).attack_state.is_active = false
    simp only [Skeleton.take_damage] at hs ⊢
    split_ifs at hs ⊢ with h1 h2
    · exact h h1
    · rfl
    · rfl
  | shouldDeal =>
    intro hs
    obtain ⟨e1, e2⟩ := should_deal_fields sk
    show (sk.should_deal_damage).2.attack_state.is_active = false
    rw [e2]
    refine h ?_
    rw [← e1]
    exact hs
  | registerHit =>
    intro hs
    exact h hs
  | update pr rb sc =>
    intro hs
    rw [step_update_eq] at hs ⊢
    have hfields :=
      apply_gravity_fields { sk with rect := { sk.rect with x := sk.rect.x - sc } }
    generalize hG : ({ sk with rect :=
      { sk.rect with x := sk.rect.x - sc } }).apply_gravity = s2 at hs hfields ⊢
    have hinv2 : (s2.state = SkeletonState.HURT ∨ s2.state = SkeletonState.DEATH) →
        s2.attack_state.is_active = false := by
      rw [hfields.1, hfields.2]
      exact h
    by_cases hstag : s2.state = SkeletonState.HURT ∨ s2.state = SkeletonState.DEATH
    · rw [update_ai_of_stagger s2 pr rb hstag] at hs ⊢
      exact update_animation_preserves_inactive s2 hinv2 hs
    · have hcases := update_ai_state_cases s2 pr rb hstag
      have hinv3 : ((s2.update_ai pr rb).state = SkeletonState.HURT ∨
          (s2.update_ai pr rb).state = SkeletonState.DEATH) →
          (s2.update_ai pr rb).attack_state.is_active = false := by
        intro hx
        exfalso
        rcases hx with hx | hx <;> rw [hx] at hcases <;> simp at hcases
      exact update_animation_preserves_inactive _ hinv3 hs

/-- The invariant holds of every state reachable by running operations
from an invariant state. -/
theorem run_preserves_inactive :
    ∀ (ops : List SkOp) (sk : Skeleton),
      ((sk.state = SkeletonState.HURT ∨ sk.state = SkeletonState.DEATH) →
        sk.attack_state.is_active = false) →
      (((sk.run ops).state = SkeletonState.HURT ∨
        (sk.run ops).state = SkeletonState.DEATH) →
        (sk.run ops).attack_state.is_active = false) := by
  intro ops
  induction ops with
  | nil => intro sk h; exact h
  | cons op ops ih => intro sk h; exact ih _ (step_preserves_inactive sk op h)

/-- C10: in every skeleton state reachable from a fresh spawn, being
staggered or dead implies the attack state is inactive, hence neither
an active hit frame nor a damage grant is possible there. -/
theorem C10_stagger_implies_attack_inactive (r : Rect) (gy : ℤ) (ops : List SkOp)
    (h : ((Skeleton.spawn r gy).run ops).state = SkeletonState.HURT ∨
      ((Skeleton.spawn r gy).run ops).state = SkeletonState.DEATH) :
    ((Skeleton.spawn r gy).run ops).attack_state.is_active = false ∧
      ((Skeleton.spawn r gy).run ops).is_in_hit_frame = false ∧
      (((Skeleton.spawn r gy).run ops).should_deal_damage).1 = false := by
  have hact := run_preserves_inactive ops (Skeleton.spawn r gy)
    (by intro hx; rcases hx with hx | hx <;> simp [Skeleton.spawn] at hx) h
  have hihf : ((Skeleton.spawn r gy).run ops).is_in_hit_frame = false := by
    simp [Skeleton.is_in_hit_frame, hact]
  refine ⟨hact, hihf, ?_⟩
  simp [Skeleton.should_deal_damage, hihf]

section

attribute [local semireducible] Rat.add Rat.mul Rat.sub Rat.inv Rat.ofScientific

/-- Witness for C10: one point of damage staggers the fresh skeleton
into HURT, where the attack state is inactive and no hit can land. -/
theorem C10_stagger_implies_attack_inactive_witness :
    ((Skeleton.spawn { x := 0, y := 0, w := 10, h := 10 } 100).run
        [SkOp.takeDamage 1]).attack_state.is_active = false ∧
      ((Skeleton.spawn { x := 0, y := 0, w := 10, h := 10 } 100).run
        [SkOp.takeDamage 1]).is_in_hit_frame = false ∧
      (((Skeleton.spawn { x := 0, y := 0, w := 10, h := 10 } 100).run
        [SkOp.takeDamage 1]).should_deal_damage).1 = false :=
  C10_stagger_implies_attack_inactive { x := 0, y := 0, w := 10, h := 10 } 100
    [SkOp.takeDamage 1] (Or.inl (by decide))

end

end SkeletonMod

end PixelRunner

namespace PixelRunner

namespace GameStateMod

open SkeletonMod PlayerMod

/-- C1 evaluation: the enemies-to-player pass returns with nothing done
whenever the player is invincible.  In particular the register-hit
attempt on the skeleton is NOT made: the returned skeleton (and its
hit-connected flag and last-frame bookkeeping) is bit-for-bit the input
one, even for a skeleton in ATTACK state whose should_deal_damage is
true and whose hitbox overlaps the player. -/
theorem C1_invincible_pass_skips_everything (player : Player) (sk : Skeleton)
    (score screen_width : ℤ) (hinv : player.is_invincible = true) :
    process_enemy_attacks player [sk] score screen_width =
      (player, [sk], score, []) := by
  simp [process_enemy_attacks, hinv]

section

attribute [local semireducible] Rat.add Rat.mul Rat.sub Rat.inv Rat.ofScientific

/-- Witness for C1 at a concrete failing input: the hurt (invincible)
player overlaps a skeleton that is mid-attack on a hit frame with
should_deal_damage true, yet the pass changes nothing: register_hit is
never called (the skeleton is returned unchanged, hit_connected still
false), health is untouched and no sound plays. -/
theorem C1_invincible_pass_skips_everything_witness :
    Samples.hurtPlayer.is_invincible = true ∧
      Samples.attackingSkeleton.state = SkeletonState.ATTACK ∧
      (Samples.attackingSkeleton.should_deal_damage).1 = true ∧
      Samples.attackingSkeleton.rect.colliderect Samples.hurtPlayer.rect = true ∧
      Samples.attackingSkeleton.attack_state.hit_connected = false ∧
      process_enemy_attacks Samples.hurtPlayer [Samples.attackingSkeleton] 0 1600 =
        (Samples.hurtPlayer, [Samples.attackingSkeleton], 0, []) :=
  ⟨by decide, by decide, by decide, by decide, by decide,
    C1_invincible_pass_skips_everything Samples.hurtPlayer Samples.attackingSkeleton 0 1600
      (by decide)⟩

end

end GameStateMod

end PixelRunner
